import Mathlib

/-!
# Handicap Cup Scorer — verification of the scoring/state core

Shallow embedding of the scoring core of the "Handicap Cup Scorer"
application (version 1.0.5 of `app.js`): the match state data model, the
totals calculator (`sumHandicaps`, `rowSetTotals`, `sumPointsAll`,
`computeRunningTotalsByRow`, and the grand totals computed in
`renderTotalsOnly`), the input clamping helpers (`clampInt`,
`clampIntOrBlank`) with the mutations that use them, and the persistence
layer (`saveState` / `loadState`) over a model of JSON values.

JavaScript numbers are modelled as `Int` (every value the core stores or
derives is an integer); the empty-string score sentinel `""` is modelled
as `Option.none`; JavaScript's dynamically typed parsed-JSON values are
modelled by the inductive `JVal`, and an operation that can throw a
`TypeError` is modelled with an `Option` result.
-/

set_option maxHeartbeats 1600000

namespace HcapCup

/-- A roster entry: `{ name: string, hcap: integer }`. -/
structure Player where
  name : String
  hcap : Int
deriving DecidableEq, Repr

/-- One game cell `{ h: number|"", a: number|"" }`; `none` models the
empty-string sentinel `""`. -/
structure Cell where
  h : Option Int
  a : Option Int
deriving DecidableEq, Repr

/-- The aggregate match state
`{ home: Player[3], away: Player[3], scores: Cell[9][4] }`.
List lengths are not fixed by the type (JavaScript arrays are untyped);
the §3 invariants are the separate predicate `stateValid`. -/
structure MatchState where
  home : List Player
  away : List Player
  scores : List (List Cell)
deriving DecidableEq, Repr

/-- A `{home, away}` totals pair as returned by `rowSetTotals` and
`sumPointsAll`. -/
structure Totals where
  home : Int
  away : Int
deriving DecidableEq, Repr

/-- One entry of `computeRunningTotalsByRow().rows`:
`{ totalHome, totalAway }`. -/
structure RunningRow where
  totalHome : Int
  totalAway : Int
deriving DecidableEq, Repr

/-- The record returned by `computeRunningTotalsByRow`:
`{ baseHome, baseAway, rows }`. -/
structure RunningTotals where
  baseHome : Int
  baseAway : Int
  rows : List RunningRow
deriving DecidableEq, Repr

/-- One entry `{ h, a }` of `MATCH_ORDER` (1-based player numbers). -/
structure Pairing where
  h : Int
  a : Int
deriving DecidableEq, Repr

/-- Which side of a `{h, a}` / `{home, away}` pair a mutation targets. -/
inductive Side where
  | home
  | away
deriving DecidableEq, Repr

/-! ## Number.parseInt and the clamping helpers -/

/-- Decimal value of a digit run, most significant first
(`parseInt` accumulates digits left to right). -/
def digitsVal (ds : List Char) : Nat :=
  ds.foldl (fun acc c => acc * 10 + (c.toNat - 48)) 0

/-- `Number.parseInt(v, 10)`: skip leading whitespace, read an optional
sign, then the longest run of decimal digits; `none` models `NaN` (no
digits at all).  Trailing garbage after the digit run is ignored, so
`parseInt("7abc") = 7`. -/
def jsParseInt (s : String) : Option Int :=
  let cs := s.data.dropWhile (fun c => c.isWhitespace)
  let signAndRest : Int × List Char :=
    match cs with
    | '-' :: rest => (-1, rest)
    | '+' :: rest => (1, rest)
    | _ => (1, cs)
  let ds := signAndRest.2.takeWhile (fun c => c.isDigit)
  if ds.isEmpty then none
  else some (signAndRest.1 * (digitsVal ds : Int))

/-- `clampIntOrBlank(v, min, max)` from `app.js` v1.0.5 lines 181–186:
the empty string stays the blank sentinel, an unparseable value becomes
the blank sentinel, and a parsed integer is clamped as
`Math.max(min, Math.min(max, n))`. -/
def clampIntOrBlank (v : String) (mn mx : Int) : Option Int :=
  if v = "" then none
  else
    match jsParseInt v with
    | none => none
    | some n => some (max mn (min mx n))

/-- `clampInt(v, min, max)` from `app.js` v1.0.5 lines 188–192: an
unparseable value becomes 0, otherwise `Math.max(min, Math.min(max, n))`. -/
def clampInt (v : String) (mn mx : Int) : Int :=
  match jsParseInt v with
  | none => 0
  | some n => max mn (min mx n)

/-! ## The compile-time constants -/

/-- `MATCH_ORDER` (lines 199–209): the fixed pairing schedule. -/
def MATCH_ORDER : List Pairing :=
  [ ⟨2, 1⟩, ⟨1, 3⟩, ⟨3, 2⟩, ⟨2, 3⟩, ⟨3, 1⟩, ⟨1, 2⟩, ⟨3, 3⟩, ⟨2, 2⟩, ⟨1, 1⟩ ]

/-- `defaultState()` (lines 211–226): 3 named players per side with
handicap 0, and a 9×4 grid of blank cells. -/
def defaultState : MatchState :=
  { home := [ ⟨"Home 1", 0⟩, ⟨"Home 2", 0⟩, ⟨"Home 3", 0⟩ ]
    away := [ ⟨"Away 1", 0⟩, ⟨"Away 2", 0⟩, ⟨"Away 3", 0⟩ ]
    scores := List.replicate 9 (List.replicate 4 (⟨none, none⟩ : Cell)) }

/-! ## Totals Calculator -/

/-- `Number(cell.h)` for a stored cell value: `Number("") = 0` and a
stored integer is itself.  (A stored value of these two shapes is never
`NaN`, so the source's `Number.isNaN` guard never skips it.) -/
def cellNum : Option Int → Int
  | none => 0
  | some n => n

/-- `sumHandicaps(team)` (lines 278–280): `Σ (Number(p.hcap) || 0)`;
with integer handicaps, `Number(p.hcap) || 0` is `p.hcap`. -/
def sumHandicaps (team : List Player) : Int :=
  team.foldl (fun acc p => acc + p.hcap) 0

/-- `rowSetTotals(rowIndex)` (lines 282–293): sum the 4 cells of the
row per side.  On a well-formed 9×4 grid every access is in range; the
out-of-range default (an absent row / cell contributing 0) is never hit
there. -/
def rowSetTotals (st : MatchState) (rowIndex : Nat) : Totals :=
  (List.range 4).foldl
    (fun t g =>
      let cell := (st.scores.getD rowIndex []).getD g ⟨none, none⟩
      { home := t.home + cellNum cell.h, away := t.away + cellNum cell.a })
    ⟨0, 0⟩

/-- `sumPointsAll()` (lines 295–304): `Σ rowSetTotals(r)` over `r < 9`. -/
def sumPointsAll (st : MatchState) : Totals :=
  (List.range 9).foldl
    (fun t r =>
      let rt := rowSetTotals st r
      { home := t.home + rt.home, away := t.away + rt.away })
    ⟨0, 0⟩

/-- `computeRunningTotalsByRow()` (lines 306–323): running accumulators
seeded with the handicap bases, pushing one `{totalHome, totalAway}` row
per iteration. -/
def computeRunningTotalsByRow (st : MatchState) : RunningTotals :=
  let baseHome := sumHandicaps st.home
  let baseAway := sumHandicaps st.away
  let fin :=
    (List.range 9).foldl
      (fun (acc : Int × Int × List RunningRow) r =>
        let rt := rowSetTotals st r
        let runHome := acc.1 + rt.home
        let runAway := acc.2.1 + rt.away
        (runHome, runAway, acc.2.2 ++ [⟨runHome, runAway⟩]))
      (baseHome, baseAway, [])
  { baseHome := baseHome, baseAway := baseAway, rows := fin.2.2 }

/-- The grand totals computed in `renderTotalsOnly` (lines 580–599):
`grandHome = sumHandicaps(state.home) + sumPointsAll().home` and
symmetrically for away. -/
def grandTotals (st : MatchState) : Totals :=
  let pts := sumPointsAll st
  { home := sumHandicaps st.home + pts.home
    away := sumHandicaps st.away + pts.away }

/-! ## State Store mutations -/

/-- In-place update of index `i` of a JavaScript array (`arr[i].f = v`);
out of range it is a no-op (such an access never happens on well-formed
state, where `i` is always in range). -/
def listModify : List α → Nat → (α → α) → List α
  | [], _, _ => []
  | x :: xs, 0, f => f x :: xs
  | x :: xs, n + 1, f => x :: listModify xs n f

/-- The roster name handler (lines 386–389):
`state[teamKey][idx].name = e.target.value`. -/
def setPlayerName (st : MatchState) (side : Side) (idx : Nat) (text : String) :
    MatchState :=
  match side with
  | .home => { st with home := listModify st.home idx (fun p => { p with name := text }) }
  | .away => { st with away := listModify st.away idx (fun p => { p with name := text }) }

/-- The roster handicap handler (lines 399–406):
`state[teamKey][idx].hcap = clampInt(e.target.value, 0, 999)`. -/
def setHandicap (st : MatchState) (side : Side) (idx : Nat) (raw : String) :
    MatchState :=
  match side with
  | .home => { st with home := listModify st.home idx (fun p => { p with hcap := clampInt raw 0 999 }) }
  | .away => { st with away := listModify st.away idx (fun p => { p with hcap := clampInt raw 0 999 }) }

/-- The game-cell input handlers (lines 497–501 and 517–521):
`state.scores[r][g].h = clampIntOrBlank(e.target.value, 0, 11)` (and
`.a` for the away input). -/
def setGameCell (st : MatchState) (r g : Nat) (side : Side) (raw : String) :
    MatchState :=
  { st with
    scores := listModify st.scores r (fun row =>
      listModify row g (fun c =>
        match side with
        | .home => { c with h := clampIntOrBlank raw 0 11 }
        | .away => { c with a := clampIntOrBlank raw 0 11 })) }

/-- The reset handler (lines 270–275): `state = defaultState()`. -/
def resetState : MatchState := defaultState

/-- Read one stored game-cell value back out of the grid. -/
def getGameCell (st : MatchState) (r g : Nat) (side : Side) : Option Int :=
  let cell := (st.scores.getD r []).getD g (⟨none, none⟩ : Cell)
  match side with
  | .home => cell.h
  | .away => cell.a

/-- Read one stored handicap back out of a roster. -/
def getHcap (st : MatchState) (side : Side) (idx : Nat) : Int :=
  let team := match side with | .home => st.home | .away => st.away
  (team.getD idx ⟨"", 0⟩).hcap

/-! ## §3 validity -/

/-- A stored cell value is blank or an integer in `[0, 11]`. -/
def cellValValid (v : Option Int) : Bool :=
  v.all (fun n => 0 ≤ n && n ≤ 11)

/-- The §3 invariants of a Match State: 3-player rosters with handicaps
in `[0, 999]` and a 9×4 grid of valid cells. -/
def stateValid (st : MatchState) : Bool :=
  st.home.length == 3 && st.away.length == 3 &&
  st.home.all (fun p => 0 ≤ p.hcap && p.hcap ≤ 999) &&
  st.away.all (fun p => 0 ≤ p.hcap && p.hcap ≤ 999) &&
  st.scores.length == 9 &&
  st.scores.all (fun row =>
    row.length == 4 && row.all (fun c => cellValValid c.h && cellValValid c.a))

/-! ## Persistence Gateway over a model of parsed JSON values -/

/-- A parsed JSON value (what `JSON.parse` can produce). -/
inductive JVal where
  | null
  | bool (b : Bool)
  | num (n : Int)
  | str (s : String)
  | arr (xs : List JVal)
  | obj (fields : List (String × JVal))

/-- JavaScript property access `v.key` as used by `loadState`'s checks:
the field's value when `v` is an object that has it, otherwise
`undefined` (here `none`).  `loadState` wraps the whole body in
`try/catch`, so the `TypeError` thrown by access on `null` lands in the
same fresh-default outcome as a falsy field. -/
def jGet (v : JVal) (key : String) : Option JVal :=
  match v with
  | .obj fs => (fs.find? (fun kv => kv.1 == key)).map (fun kv => kv.2)
  | _ => none

/-- JavaScript truthiness of a possibly-`undefined` value (`!x` negated):
`undefined`, `null`, `false`, `0`, and `""` are falsy. -/
def jTruthy : Option JVal → Bool
  | none => false
  | some .null => false
  | some (.bool b) => b
  | some (.num n) => n != 0
  | some (.str s) => s != ""
  | some (.arr _) => true
  | some (.obj _) => true

/-- `Array.isArray(x)` on a possibly-`undefined` value. -/
def jIsArray : Option JVal → Bool
  | some (.arr _) => true
  | _ => false

/-- `JSON.stringify` image of a roster entry. -/
def playerToJVal (p : Player) : JVal :=
  .obj [("name", .str p.name), ("hcap", .num p.hcap)]

/-- `JSON.stringify` image of one stored cell value (`""` or a number). -/
def cellValToJVal : Option Int → JVal
  | none => .str ""
  | some n => .num n

/-- `JSON.stringify` image of a game cell. -/
def cellToJVal (c : Cell) : JVal :=
  .obj [("h", cellValToJVal c.h), ("a", cellValToJVal c.a)]

/-- `JSON.stringify` image of the whole match state — the §6 persisted
layout.  `saveState()` (lines 244–246) writes exactly this. -/
def stateToJVal (st : MatchState) : JVal :=
  .obj [("home", .arr (st.home.map playerToJVal)),
        ("away", .arr (st.away.map playerToJVal)),
        ("scores", .arr (st.scores.map (fun row => .arr (row.map cellToJVal))))]

/-- `saveState()` (lines 244–246): serialize the current state into the
version-scoped storage slot. -/
def saveState (st : MatchState) : JVal := stateToJVal st

/-- The serialized fresh default, `JSON.stringify(defaultState())`. -/
def jDefaultState : JVal := stateToJVal defaultState

/-- `loadState()` (lines 228–242).  The input is the parsed content of
the storage slot: `none` models an absent/empty slot and a payload on
which `JSON.parse` throws (both reach `defaultState()`); `some s` is the
parsed value.  The body's checks in source order:
`!s.scores`, `!Array.isArray(s.home) || !Array.isArray(s.away)`,
`!Array.isArray(s.scores) || s.scores.length !== 9`; otherwise the
payload is returned as-is. -/
def loadState (raw : Option JVal) : JVal :=
  match raw with
  | none => jDefaultState
  | some s =>
    if jTruthy (jGet s "scores") = false then jDefaultState
    else if (jIsArray (jGet s "home") && jIsArray (jGet s "away")) = false then
      jDefaultState
    else if (match jGet s "scores" with
             | some (JVal.arr xs) => xs.length == 9
             | _ => false) = false then jDefaultState
    else s

/-! ## Dynamic (duck-typed) evaluation of `rowSetTotals`

`loadState` returns whatever structurally-plausible payload was stored,
so the live `state` the calculator reads is dynamically typed.  The
following model evaluates `rowSetTotals` exactly as JavaScript would on
an arbitrary `JVal` state; a `none` result models a thrown `TypeError`. -/

/-- Property access `v.key` on a possibly-`undefined` value, with the
outer `Option` modelling a throw: access on `undefined` or `null`
throws, access on any other non-object yields `undefined`. -/
def jGetE (v : Option JVal) (key : String) : Option (Option JVal) :=
  match v with
  | none => none
  | some .null => none
  | some (.obj fs) => some ((fs.find? (fun kv => kv.1 == key)).map (fun kv => kv.2))
  | some _ => some none

/-- Index access `v[i]` on a possibly-`undefined` value, with the outer
`Option` modelling a throw: indexing `undefined` or `null` throws, an
array yields its element (or `undefined` out of range), and any other
value yields `undefined`. -/
def jIndex (v : Option JVal) (i : Nat) : Option (Option JVal) :=
  match v with
  | none => none
  | some .null => none
  | some (.arr xs) => some (xs.get? i)
  | some _ => some none

/-- `Number(s)` on a string, for the string shapes the state can hold:
a whitespace-only string is 0, an optionally signed digit string is its
value, and anything else is `NaN` (`none`).  (Fractional or exponent
forms never occur in a stored state.) -/
def jsNumberOfString (s : String) : Option Int :=
  let cs := s.data.dropWhile (fun c => c.isWhitespace)
  if cs.isEmpty then some 0
  else
    let signAndRest : Int × List Char :=
      match cs with
      | '-' :: rest => (-1, rest)
      | '+' :: rest => (1, rest)
      | _ => (1, cs)
    if signAndRest.2.isEmpty = false ∧ signAndRest.2.all (fun c => c.isDigit) then
      some (signAndRest.1 * (digitsVal signAndRest.2 : Int))
    else none

/-- `Number(x)` on a possibly-`undefined` value; `none` models `NaN`.
(`Number` of an array or object never occurs on the shapes the program
stores; both are modelled as `NaN`.) -/
def jNumber : Option JVal → Option Int
  | none => none
  | some .null => some 0
  | some (.bool b) => some (if b then 1 else 0)
  | some (.num n) => some n
  | some (.str s) => jsNumberOfString s
  | some (.arr _) => none
  | some (.obj _) => none

/-- One iteration `g` of the loop in `rowSetTotals` (lines 285–291),
evaluated dynamically on a `JVal` state: read
`state.scores[rowIndex][g]`, coerce `cell.h` / `cell.a` with `Number`,
and add each unless it is `NaN`.  `none` models a thrown `TypeError`. -/
def gameCellStep (stJ : JVal) (rowIndex g : Nat) (t : Totals) : Option Totals := do
  let scores ← jGetE (some stJ) "scores"
  let row ← jIndex scores rowIndex
  let cell ← jIndex row g
  let hv ← jGetE cell "h"
  let av ← jGetE cell "a"
  let home := match jNumber hv with
    | some n => t.home + n
    | none => t.home
  let away := match jNumber av with
    | some n => t.away + n
    | none => t.away
  pure ⟨home, away⟩

/-- `rowSetTotals(rowIndex)` (lines 282–293) evaluated dynamically on a
`JVal` state, as JavaScript would run it; `none` models a thrown
`TypeError`. -/
def rowSetTotalsDyn (stJ : JVal) (rowIndex : Nat) : Option Totals :=
  (List.range 4).foldlM (fun t g => gameCellStep stJ rowIndex g t) (⟨0, 0⟩ : Totals)

/-! ## Helper lemmas -/

lemma range_nine : List.range 9 = [0, 1, 2, 3, 4, 5, 6, 7, 8] := rfl

lemma range_four : List.range 4 = [0, 1, 2, 3] := rfl

lemma listModify_getD {α : Type} (l : List α) (i : Nat) (f : α → α) (d : α)
    (h : i < l.length) : (listModify l i f).getD i d = f (l.getD i d) := by
  induction l generalizing i with
  | nil => simp at h
  | cons x xs ih =>
    cases i with
    | zero => rfl
    | succ n =>
      simp only [listModify, List.getD_cons_succ]
      exact ih n (by simpa using h)

/-- Unpack the structural part of `stateValid`: roster lengths, grid
height and row widths. -/
lemma stateValid_shape (st : MatchState) (hv : stateValid st = true) :
    st.home.length = 3 ∧ st.away.length = 3 ∧ st.scores.length = 9 ∧
      ∀ row ∈ st.scores, row.length = 4 := by
  simp only [stateValid, Bool.and_eq_true, beq_iff_eq, List.all_eq_true] at hv
  exact ⟨hv.1.1.1.1.1, hv.1.1.1.1.2, hv.1.2, fun row hrow => (hv.2 row hrow).1⟩

lemma getGameCell_setGameCell (st : MatchState) (r g : Nat) (side : Side)
    (raw : String) (hr : r < st.scores.length)
    (hg : g < (st.scores.getD r []).length) :
    getGameCell (setGameCell st r g side raw) r g side = clampIntOrBlank raw 0 11 := by
  cases side <;>
    · unfold getGameCell setGameCell
      rw [listModify_getD _ _ _ _ hr, listModify_getD _ _ _ _ hg]

lemma getHcap_setHandicap (st : MatchState) (side : Side) (idx : Nat) (raw : String)
    (hh : idx < st.home.length) (ha : idx < st.away.length) :
    getHcap (setHandicap st side idx raw) side idx = clampInt raw 0 999 := by
  cases side <;>
    · unfold getHcap setHandicap
      simp only
      rw [listModify_getD _ _ _ _ (by assumption)]

/-! ## Claim theorems -/

/-- **C8.** The pairing schedule `MATCH_ORDER` is exactly the sequence
(2,1),(1,3),(3,2),(2,3),(3,1),(1,2),(3,3),(2,2),(1,1), and every value
of 1..3 appears exactly 3 times as home index and 3 times as away
index. -/
theorem C8_match_order :
    MATCH_ORDER =
      [⟨2, 1⟩, ⟨1, 3⟩, ⟨3, 2⟩, ⟨2, 3⟩, ⟨3, 1⟩, ⟨1, 2⟩, ⟨3, 3⟩, ⟨2, 2⟩, ⟨1, 1⟩]
    ∧ (∀ v ∈ ([1, 2, 3] : List Int),
        MATCH_ORDER.countP (fun p => p.h == v) = 3 ∧
        MATCH_ORDER.countP (fun p => p.a == v) = 3) := by
  constructor
  · rfl
  · decide

/-- Witness for C8: the counting invariant holds at the concrete home
index 1. -/
theorem C8_match_order_witness :
    MATCH_ORDER.countP (fun p => p.h == (1 : Int)) = 3 ∧
    MATCH_ORDER.countP (fun p => p.a == (1 : Int)) = 3 :=
  C8_match_order.2 1 (by decide)

/-- **C4.** A game-cell mutation stores a blank input as the empty
sentinel; a parseable input is clamped into [0, 11] ("15" stores 11,
"-3" stores 0); a non-blank unparseable input is stored as the empty
sentinel, not as 0. -/
theorem C4_setGameCell_clamps (st : MatchState) (r g : Nat) (side : Side)
    (raw : String) (hv : stateValid st = true) (hr : r < 9) (hg : g < 4) :
    (raw = "" → getGameCell (setGameCell st r g side raw) r g side = none)
    ∧ (∀ n, jsParseInt raw = some n →
        getGameCell (setGameCell st r g side raw) r g side = some (max 0 (min 11 n)))
    ∧ (raw ≠ "" → jsParseInt raw = none →
        getGameCell (setGameCell st r g side raw) r g side = none)
    ∧ getGameCell (setGameCell st r g side "15") r g side = some 11
    ∧ getGameCell (setGameCell st r g side "-3") r g side = some 0 := by
  obtain ⟨_, _, hlen, hrows⟩ := stateValid_shape st hv
  have hr9 : r < st.scores.length := by omega
  have hrow4 : (st.scores.getD r []).length = 4 := by
    rw [List.getD_eq_getElem _ _ hr9]
    exact hrows _ (List.getElem_mem hr9)
  have hg4 : g < (st.scores.getD r []).length := by omega
  have key : ∀ s : String,
      getGameCell (setGameCell st r g side s) r g side = clampIntOrBlank s 0 11 :=
    fun s => getGameCell_setGameCell st r g side s hr9 hg4
  refine ⟨?_, ?_, ?_, ?_, ?_⟩
  · intro h; rw [key, h]; rfl
  · intro n hn
    have hne : raw ≠ "" := by
      intro h; rw [h] at hn; simp [jsParseInt] at hn
    rw [key]; simp [clampIntOrBlank, hne, hn]
  · intro hne hnone
    rw [key]; simp [clampIntOrBlank, hne, hnone]
  · rw [key]; rfl
  · rw [key]; rfl

/-- Witness for C4: at the default state, row 0, game 0, home side, the
blank, parseable ("15", "-3", "7") and unparseable ("x") branches all
hold. -/
theorem C4_setGameCell_clamps_witness :
    getGameCell (setGameCell defaultState 0 0 Side.home "") 0 0 Side.home = none
    ∧ getGameCell (setGameCell defaultState 0 0 Side.home "7") 0 0 Side.home =
        some (max 0 (min 11 7))
    ∧ getGameCell (setGameCell defaultState 0 0 Side.home "x") 0 0 Side.home = none
    ∧ getGameCell (setGameCell defaultState 0 0 Side.home "15") 0 0 Side.home = some 11
    ∧ getGameCell (setGameCell defaultState 0 0 Side.home "-3") 0 0 Side.home = some 0 := by
  have h := C4_setGameCell_clamps defaultState 0 0 Side.home "" (by decide)
    (by decide) (by decide)
  have h7 := C4_setGameCell_clamps defaultState 0 0 Side.home "7" (by decide)
    (by decide) (by decide)
  have hx := C4_setGameCell_clamps defaultState 0 0 Side.home "x" (by decide)
    (by decide) (by decide)
  exact ⟨h.1 rfl, h7.2.1 7 (by decide), hx.2.2.1 (by decide) (by decide),
    h.2.2.2.1, h.2.2.2.2⟩

/-- **C5.** A handicap mutation parses the input as an integer clamped
into [0, 999]; a fully unparseable input ("abc") results in handicap 0,
never an empty state and never the pre-existing value. -/
theorem C5_setHandicap_clamps (st : MatchState) (side : Side) (idx : Nat)
    (raw : String) (hv : stateValid st = true) (hidx : idx < 3) :
    (jsParseInt raw = none → getHcap (setHandicap st side idx raw) side idx = 0)
    ∧ (∀ n, jsParseInt raw = some n →
        getHcap (setHandicap st side idx raw) side idx = max 0 (min 999 n))
    ∧ getHcap (setHandicap st side 0 "abc") side 0 = 0 := by
  obtain ⟨hh, ha, _, _⟩ := stateValid_shape st hv
  have key : ∀ (i : Nat) (s : String), i < 3 →
      getHcap (setHandicap st side i s) side i = clampInt s 0 999 :=
    fun i s hi => getHcap_setHandicap st side i s (by omega) (by omega)
  refine ⟨?_, ?_, ?_⟩
  · intro hnone; rw [key _ _ hidx]; simp [clampInt, hnone]
  · intro n hn; rw [key _ _ hidx]; simp [clampInt, hn]
  · rw [key _ _ (by omega)]; rfl

/-- Witness for C5: at the default state, `setHandicap(home, 0, "abc")`
stores 0 and `setHandicap(home, 0, "1500")` stores the clamp of 1500. -/
theorem C5_setHandicap_clamps_witness :
    getHcap (setHandicap defaultState Side.home 0 "abc") Side.home 0 = 0
    ∧ getHcap (setHandicap defaultState Side.home 0 "1500") Side.home 0 =
        max 0 (min 999 1500) := by
  have h := C5_setHandicap_clamps defaultState Side.home 0 "abc" (by decide) (by decide)
  have h2 := C5_setHandicap_clamps defaultState Side.home 0 "1500" (by decide) (by decide)
  exact ⟨h.1 (by decide), h2.2.1 1500 (by decide)⟩

/-- **C10.** A game-cell input whose text begins with a parseable
integer followed by garbage ("7abc") stores the clamped parsed value
(7), not the empty sentinel; only a non-blank input with no parseable
integer head is stored as the empty sentinel. -/
theorem C10_integer_head_parses (st : MatchState) (r g : Nat) (side : Side)
    (hv : stateValid st = true) (hr : r < 9) (hg : g < 4) :
    getGameCell (setGameCell st r g side "7abc") r g side = some 7
    ∧ (∀ raw n, jsParseInt raw = some n →
        getGameCell (setGameCell st r g side raw) r g side = some (max 0 (min 11 n)))
    ∧ (∀ raw, raw ≠ "" → jsParseInt raw = none →
        getGameCell (setGameCell st r g side raw) r g side = none) := by
  obtain ⟨_, _, hlen, hrows⟩ := stateValid_shape st hv
  have hr9 : r < st.scores.length := by omega
  have hg4 : g < (st.scores.getD r []).length := by
    rw [List.getD_eq_getElem _ _ hr9]
    rw [hrows _ (List.getElem_mem hr9)]; omega
  have key : ∀ s : String,
      getGameCell (setGameCell st r g side s) r g side = clampIntOrBlank s 0 11 :=
    fun s => getGameCell_setGameCell st r g side s hr9 hg4
  refine ⟨by rw [key]; rfl, ?_, ?_⟩
  · intro raw n hn
    have hne : raw ≠ "" := by
      intro h; rw [h] at hn; simp [jsParseInt] at hn
    rw [key]; simp [clampIntOrBlank, hne, hn]
  · intro raw hne hnone
    rw [key]; simp [clampIntOrBlank, hne, hnone]

/-- Witness for C10: at the default state, "7abc" stores 7 and "abc"
stores the empty sentinel. -/
theorem C10_integer_head_parses_witness :
    getGameCell (setGameCell defaultState 0 0 Side.home "7abc") 0 0 Side.home = some 7
    ∧ getGameCell (setGameCell defaultState 0 0 Side.home "abc") 0 0 Side.home = none := by
  have h := C10_integer_head_parses defaultState 0 0 Side.home (by decide)
    (by decide) (by decide)
  exact ⟨h.1, h.2.2 "abc" (by decide) (by decide)⟩

/-! ## Calculator claims -/

/-- The spec's fixed scenario: from the default state, set home player
1's handicap to 10 and row 0 game 1 to home=11 / away=3. -/
def scenarioState : MatchState :=
  setGameCell (setGameCell (setHandicap defaultState Side.home 0 "10") 0 0 Side.home "11")
    0 0 Side.away "3"

/-- No stored game-cell value in the grid is negative (a blank cell
coerces to 0). -/
def NoNegCells (st : MatchState) : Prop :=
  ∀ row ∈ st.scores, ∀ c ∈ row, 0 ≤ cellNum c.h ∧ 0 ≤ cellNum c.a

lemma cell_nonneg (st : MatchState) (hpos : NoNegCells st) (r g : Nat) :
    0 ≤ cellNum ((st.scores.getD r []).getD g (⟨none, none⟩ : Cell)).h ∧
    0 ≤ cellNum ((st.scores.getD r []).getD g (⟨none, none⟩ : Cell)).a := by
  have hrowD : st.scores.getD r [] = (st.scores[r]?).getD [] := by
    rw [List.getD_eq_getD_get?, List.get?_eq_getElem?]
  rcases hrow : st.scores[r]? with _ | row
  · rw [hrowD, hrow]; simp [cellNum]
  · obtain ⟨hlt, hval⟩ := List.getElem?_eq_some_iff.mp hrow
    have hrmem : row ∈ st.scores := hval ▸ List.getElem_mem hlt
    have hcellD : row.getD g (⟨none, none⟩ : Cell) = (row[g]?).getD ⟨none, none⟩ := by
      rw [List.getD_eq_getD_get?, List.get?_eq_getElem?]
    rw [hrowD, hrow, Option.getD_some]
    rcases hcell : row[g]? with _ | c
    · rw [hcellD, hcell]; simp [cellNum]
    · obtain ⟨hlt2, hval2⟩ := List.getElem?_eq_some_iff.mp hcell
      have hcmem : c ∈ row := hval2 ▸ List.getElem_mem hlt2
      rw [hcellD, hcell, Option.getD_some]
      simpa using hpos row hrmem c hcmem

lemma rowSetTotals_nonneg (st : MatchState) (hpos : NoNegCells st) (r : Nat) :
    0 ≤ (rowSetTotals st r).home ∧ 0 ≤ (rowSetTotals st r).away := by
  have h0 := cell_nonneg st hpos r 0
  have h1 := cell_nonneg st hpos r 1
  have h2 := cell_nonneg st hpos r 2
  have h3 := cell_nonneg st hpos r 3
  simp only [rowSetTotals, range_four, List.foldl_cons, List.foldl_nil]
  exact ⟨by omega, by omega⟩

/-- **C1.** The running totals are a prefix sum seeded by the handicap
base: row r equals the side's handicap total plus the sum of that
side's row set totals for rows 0..r.  In the fixed scenario (home
player 1 handicap 10, row 0 game 1 home=11 / away=3), rowSetTotal(0) =
{11, 3}, runningTotalsByRow(0) = {21, 3} and the grand totals are
{21, 3}. -/
theorem C1_running_totals_prefix_sum :
    (∀ (st : MatchState) (r : Nat), r < 9 →
      (computeRunningTotalsByRow st).rows.getD r ⟨0, 0⟩ =
        ⟨sumHandicaps st.home +
            ((List.range (r + 1)).map (fun i => (rowSetTotals st i).home)).sum,
         sumHandicaps st.away +
            ((List.range (r + 1)).map (fun i => (rowSetTotals st i).away)).sum⟩)
    ∧ rowSetTotals scenarioState 0 = ⟨11, 3⟩
    ∧ (computeRunningTotalsByRow scenarioState).rows.getD 0 ⟨0, 0⟩ = ⟨21, 3⟩
    ∧ grandTotals scenarioState = ⟨21, 3⟩ := by
  refine ⟨?_, by decide, by decide, by decide⟩
  intro st r hr
  interval_cases r <;>
    · simp only [computeRunningTotalsByRow, range_nine, List.foldl_cons, List.foldl_nil,
        List.nil_append, List.cons_append, List.singleton_append, List.getD_cons_zero,
        List.getD_cons_succ, List.range_succ, List.range_zero, List.map_append,
        List.map_cons, List.map_nil, List.sum_append, List.sum_cons, List.sum_nil,
        RunningRow.mk.injEq]
      omega

/-- Witness for C1: the prefix-sum characterization evaluated at the
scenario state, row 0. -/
theorem C1_running_totals_prefix_sum_witness :
    (computeRunningTotalsByRow scenarioState).rows.getD 0 ⟨0, 0⟩ =
      ⟨sumHandicaps scenarioState.home +
          ((List.range 1).map (fun i => (rowSetTotals scenarioState i).home)).sum,
       sumHandicaps scenarioState.away +
          ((List.range 1).map (fun i => (rowSetTotals scenarioState i).away)).sum⟩ :=
  C1_running_totals_prefix_sum.1 scenarioState 0 (by decide)

/-- **C2.** For every Match State and each side, the grand total equals
the 9th element of the running totals sequence, and also equals the
handicap total plus the sum of all 9 row set totals; the prefix-sum and
whole-sum formulations agree exactly over the integers. -/
theorem C2_grand_totals_agree (st : MatchState) :
    (grandTotals st).home = ((computeRunningTotalsByRow st).rows.getD 8 ⟨0, 0⟩).totalHome
    ∧ (grandTotals st).away = ((computeRunningTotalsByRow st).rows.getD 8 ⟨0, 0⟩).totalAway
    ∧ (computeRunningTotalsByRow st).rows.length = 9
    ∧ (grandTotals st).home =
        sumHandicaps st.home + (sumPointsAll st).home
    ∧ (grandTotals st).away =
        sumHandicaps st.away + (sumPointsAll st).away := by
  refine ⟨?_, ?_, ?_, ?_, ?_⟩ <;>
    · simp only [grandTotals, sumPointsAll, computeRunningTotalsByRow, range_nine,
        List.foldl_cons, List.foldl_nil, List.nil_append, List.cons_append,
        List.singleton_append, List.getD_cons_zero, List.getD_cons_succ,
        List.length_cons, List.length_nil] <;> omega

/-- **C9.** If no stored game-cell value is negative, every running
total is at least the side's handicap total, and the running totals
sequence is monotonically non-decreasing. -/
theorem C9_running_totals_monotone (st : MatchState) (hpos : NoNegCells st) :
    (∀ r, r < 9 →
      sumHandicaps st.home ≤ ((computeRunningTotalsByRow st).rows.getD r ⟨0, 0⟩).totalHome
      ∧ sumHandicaps st.away ≤ ((computeRunningTotalsByRow st).rows.getD r ⟨0, 0⟩).totalAway)
    ∧ (∀ r, r + 1 < 9 →
      ((computeRunningTotalsByRow st).rows.getD r ⟨0, 0⟩).totalHome
        ≤ ((computeRunningTotalsByRow st).rows.getD (r + 1) ⟨0, 0⟩).totalHome
      ∧ ((computeRunningTotalsByRow st).rows.getD r ⟨0, 0⟩).totalAway
        ≤ ((computeRunningTotalsByRow st).rows.getD (r + 1) ⟨0, 0⟩).totalAway) := by
  have h0 := rowSetTotals_nonneg st hpos 0
  have h1 := rowSetTotals_nonneg st hpos 1
  have h2 := rowSetTotals_nonneg st hpos 2
  have h3 := rowSetTotals_nonneg st hpos 3
  have h4 := rowSetTotals_nonneg st hpos 4
  have h5 := rowSetTotals_nonneg st hpos 5
  have h6 := rowSetTotals_nonneg st hpos 6
  have h7 := rowSetTotals_nonneg st hpos 7
  have h8 := rowSetTotals_nonneg st hpos 8
  refine ⟨?_, ?_⟩ <;> intro r hr
  · interval_cases r <;>
      · simp only [computeRunningTotalsByRow, range_nine, List.foldl_cons,
          List.foldl_nil, List.nil_append, List.cons_append, List.singleton_append,
          List.getD_cons_zero, List.getD_cons_succ]
        omega
  · have hr8 : r < 8 := by omega
    interval_cases r <;>
      · simp only [computeRunningTotalsByRow, range_nine, List.foldl_cons,
          List.foldl_nil, List.nil_append, List.cons_append, List.singleton_append,
          List.getD_cons_zero, List.getD_cons_succ]
        omega

/-- Witness for C9: at the default state (all cells blank, so no
negative values), row 0's running totals bound and the row-0-to-row-1
monotonicity both hold. -/
theorem C9_running_totals_monotone_witness :
    (sumHandicaps defaultState.home ≤
        ((computeRunningTotalsByRow defaultState).rows.getD 0 ⟨0, 0⟩).totalHome
      ∧ sumHandicaps defaultState.away ≤
        ((computeRunningTotalsByRow defaultState).rows.getD 0 ⟨0, 0⟩).totalAway)
    ∧ (((computeRunningTotalsByRow defaultState).rows.getD 0 ⟨0, 0⟩).totalHome
        ≤ ((computeRunningTotalsByRow defaultState).rows.getD 1 ⟨0, 0⟩).totalHome
      ∧ ((computeRunningTotalsByRow defaultState).rows.getD 0 ⟨0, 0⟩).totalAway
        ≤ ((computeRunningTotalsByRow defaultState).rows.getD 1 ⟨0, 0⟩).totalAway) :=
  ⟨(C9_running_totals_monotone defaultState
      (by simp [NoNegCells, defaultState, List.mem_replicate, cellNum])).1 0 (by decide),
   (C9_running_totals_monotone defaultState
      (by simp [NoNegCells, defaultState, List.mem_replicate, cellNum])).2 0 (by decide)⟩

/-! ## Persistence claims -/

/-- A persisted payload whose `scores` grid has 8 rows instead of 9. -/
def eightRowPayload : JVal :=
  stateToJVal
    { defaultState with
      scores := List.replicate 8 (List.replicate 4 (⟨none, none⟩ : Cell)) }

/-- A structurally plausible payload whose home roster has only 2
entries (both rosters are arrays, the grid is a proper 9×4 grid). -/
def shortRosterPayload : JVal :=
  JVal.obj
    [("home", JVal.arr [playerToJVal ⟨"Home 1", 0⟩, playerToJVal ⟨"Home 2", 0⟩]),
     ("away", JVal.arr (defaultState.away.map playerToJVal)),
     ("scores", JVal.arr (defaultState.scores.map (fun row => JVal.arr (row.map cellToJVal))))]

/-- A payload that passes every `loadState` check (rosters are arrays,
`scores` is a 9-element array) but whose score rows are numbers, not
arrays of cells. -/
def rowsAsNumbersPayload : JVal :=
  JVal.obj
    [("home", JVal.arr (defaultState.home.map playerToJVal)),
     ("away", JVal.arr (defaultState.away.map playerToJVal)),
     ("scores", JVal.arr ((List.range 9).map (fun i => JVal.num ((i : Int) + 1))))]

lemma jGet_state_home (st : MatchState) :
    jGet (stateToJVal st) "home" = some (JVal.arr (st.home.map playerToJVal)) := rfl

lemma jGet_state_away (st : MatchState) :
    jGet (stateToJVal st) "away" = some (JVal.arr (st.away.map playerToJVal)) := rfl

lemma jGet_state_scores (st : MatchState) :
    jGet (stateToJVal st) "scores" =
      some (JVal.arr (st.scores.map (fun row => JVal.arr (row.map cellToJVal)))) := rfl

/-- **C6.** For every Match State satisfying the §3 invariants, loading
immediately after saving returns exactly the saved serialization: the
payload passes every shape check and is returned as-is. -/
theorem C6_save_load_roundtrip (st : MatchState) (hv : stateValid st = true) :
    loadState (some (saveState st)) = saveState st := by
  have hlen : st.scores.length = 9 := (stateValid_shape st hv).2.2.1
  simp only [saveState, loadState, jGet_state_scores, jGet_state_home, jGet_state_away,
    jTruthy, jIsArray, List.length_map, hlen]
  simp

/-- Witness for C6: the round trip evaluated at the default state. -/
theorem C6_save_load_roundtrip_witness :
    loadState (some (saveState defaultState)) = saveState defaultState :=
  C6_save_load_roundtrip defaultState (by decide)

/-- **C3 counterexample.** A payload whose home roster is a 2-element
array (not 3) passes `loadState`'s checks and is returned as-is rather
than being replaced by a fresh default. -/
theorem C3_short_roster_counterexample :
    loadState (some shortRosterPayload) = shortRosterPayload
    ∧ loadState (some shortRosterPayload) ≠ jDefaultState := by
  refine ⟨rfl, ?_⟩
  intro h
  have h2 : jGet (loadState (some shortRosterPayload)) "home" =
      jGet jDefaultState "home" := by rw [h]
  rw [show loadState (some shortRosterPayload) = shortRosterPayload from rfl] at h2
  rw [show jDefaultState = stateToJVal defaultState from rfl, jGet_state_home] at h2
  rw [show jGet shortRosterPayload "home" =
      some (JVal.arr [playerToJVal ⟨"Home 1", 0⟩, playerToJVal ⟨"Home 2", 0⟩]) from rfl] at h2
  simp [defaultState, playerToJVal] at h2

/-- **C3 (amended).** `loadState` returns a fresh default whenever the
score grid is missing, or the grid is present but its row count is not
exactly 9, or either roster field is not an array; the roster length is
not checked.  In particular an 8-row `scores` payload yields the fresh
default. -/
theorem C3_load_shape_checks :
    (∀ s : JVal, jGet s "scores" = none → loadState (some s) = jDefaultState)
    ∧ (∀ (s : JVal) (xs : List JVal), jGet s "scores" = some (JVal.arr xs) →
        xs.length ≠ 9 → loadState (some s) = jDefaultState)
    ∧ (∀ s : JVal, jIsArray (jGet s "home") = false → loadState (some s) = jDefaultState)
    ∧ (∀ s : JVal, jIsArray (jGet s "away") = false → loadState (some s) = jDefaultState)
    ∧ loadState (some eightRowPayload) = jDefaultState := by
  refine ⟨?_, ?_, ?_, ?_, rfl⟩
  · intro s h
    simp [loadState, h, jTruthy]
  · intro s xs h hne
    unfold loadState
    by_cases h1 : jTruthy (jGet s "scores") = false
    · simp [h1]
    · by_cases h2 : (jIsArray (jGet s "home") && jIsArray (jGet s "away")) = false
      · simp [h1, h2]
      · have h3 : (match jGet s "scores" with
            | some (JVal.arr xs) => xs.length == 9
            | _ => false) = false := by rw [h]; simp [hne]
        simp [h1, h2, h3]
  · intro s h
    unfold loadState
    by_cases h1 : jTruthy (jGet s "scores") = false
    · simp [h1]
    · have h2 : (jIsArray (jGet s "home") && jIsArray (jGet s "away")) = false := by
        simp [h]
      simp [h1, h2]
  · intro s h
    unfold loadState
    by_cases h1 : jTruthy (jGet s "scores") = false
    · simp [h1]
    · have h2 : (jIsArray (jGet s "home") && jIsArray (jGet s "away")) = false := by
        simp [h]
      simp [h1, h2]

/-- Witness for C3 (amended): a payload with a score grid but no
rosters at all is replaced by the fresh default. -/
theorem C3_load_shape_checks_witness :
    loadState (some (JVal.obj [("scores", JVal.arr [])])) = jDefaultState :=
  C3_load_shape_checks.2.2.1 (JVal.obj [("scores", JVal.arr [])]) rfl

/-- **C7 counterexample.** The payload whose 9 score rows are numbers is
accepted by `loadState` (returned as-is), yet evaluating
`rowSetTotals(0)` on it throws a `TypeError` (modelled as `none`)
instead of producing totals: not every core operation is total on every
payload that load accepts. -/
theorem C7_accepted_payload_throws :
    loadState (some rowsAsNumbersPayload) = rowsAsNumbersPayload
    ∧ rowSetTotalsDyn rowsAsNumbersPayload 0 = none :=
  ⟨rfl, rfl⟩

lemma jNumber_cellVal (v : Option Int) :
    jNumber (some (cellValToJVal v)) = some (cellNum v) := by
  cases v <;> rfl

lemma list_len4 {α : Type} {l : List α} (h : l.length = 4) :
    ∃ a b c d, l = [a, b, c, d] := by
  rcases l with _ | ⟨a, _ | ⟨b, _ | ⟨c, _ | ⟨d, _ | ⟨e, rest⟩⟩⟩⟩⟩ <;> simp at h
  exact ⟨a, b, c, d, rfl⟩

lemma gameCellStep_eval (st : MatchState) (r g : Nat) (cs : List Cell) (c : Cell)
    (hrowE : st.scores[r]? = some cs) (hc : cs[g]? = some c) (t : Totals) :
    gameCellStep (stateToJVal st) r g t =
      some ⟨t.home + cellNum c.h, t.away + cellNum c.a⟩ := by
  unfold gameCellStep
  have hscores : jGetE (some (stateToJVal st)) "scores" =
      some (some (JVal.arr (st.scores.map (fun row => JVal.arr (row.map cellToJVal))))) := rfl
  have h1 : jIndex
      (some (JVal.arr (st.scores.map (fun row => JVal.arr (row.map cellToJVal))))) r =
      some (some (JVal.arr (cs.map cellToJVal))) := by
    simp [jIndex, List.get?_eq_getElem?, List.getElem?_map, hrowE]
  have h2 : jIndex (some (JVal.arr (cs.map cellToJVal))) g =
      some (some (cellToJVal c)) := by
    simp [jIndex, List.get?_eq_getElem?, List.getElem?_map, hc]
  have h3 : jGetE (some (cellToJVal c)) "h" = some (some (cellValToJVal c.h)) := rfl
  have h4 : jGetE (some (cellToJVal c)) "a" = some (some (cellValToJVal c.a)) := rfl
  simp [hscores, h1, h2, h3, h4, jNumber_cellVal, cellNum]

/-- **C7 (amended).** The mutations, reset, save and load always
produce a result, and on every Match State satisfying the §3 invariants
the dynamically evaluated `rowSetTotals` succeeds and agrees with the
derived totals — the failure exhibited by `C7_accepted_payload_throws`
can only arise from a structurally malformed payload that `loadState`
accepted. -/
theorem C7_calculator_total_on_wellformed (st : MatchState)
    (hv : stateValid st = true) (r : Nat) (hr : r < 9) :
    rowSetTotalsDyn (stateToJVal st) r = some (rowSetTotals st r) := by
  obtain ⟨_, _, hlen, hrows⟩ := stateValid_shape st hv
  have hr9 : r < st.scores.length := by omega
  have hrowE : st.scores[r]? = some st.scores[r] := List.getElem?_eq_getElem hr9
  have hlen4 : st.scores[r].length = 4 := hrows _ (List.getElem_mem hr9)
  obtain ⟨c0, c1, c2, c3, hcells⟩ := list_len4 hlen4
  rw [hcells] at hrowE
  have hgetD : st.scores.getD r [] = [c0, c1, c2, c3] := by
    rw [List.getD_eq_getElem _ _ hr9, hcells]
  have s0 := gameCellStep_eval st r 0 [c0, c1, c2, c3] c0 hrowE rfl
  have s1 := gameCellStep_eval st r 1 [c0, c1, c2, c3] c1 hrowE rfl
  have s2 := gameCellStep_eval st r 2 [c0, c1, c2, c3] c2 hrowE rfl
  have s3 := gameCellStep_eval st r 3 [c0, c1, c2, c3] c3 hrowE rfl
  simp only [rowSetTotalsDyn, range_four, List.foldlM_cons, List.foldlM_nil]
  simp [s0, s1, s2, s3, rowSetTotals, range_four, hgetD, hrowE]

/-- Witness for C7 (amended): the dynamic and typed evaluations agree
at the default state, row 0. -/
theorem C7_calculator_total_on_wellformed_witness :
    rowSetTotalsDyn (stateToJVal defaultState) 0 = some (rowSetTotals defaultState 0) :=
  C7_calculator_total_on_wellformed defaultState (by decide) 0 (by decide)

end HcapCup
